import Mathlib

/-!
Shallow embedding of the erixbot support-automation core
(src/app/bot.py, src/app/services/ai_services.py, src/app/models.py).

Conventions of the embedding:
* Python `datetime` values become integers (seconds for the response cache,
  days for subscription expiry dates); "now" is passed explicitly.
* Python dicts with insertion order become association lists; overwriting a
  key is modelled as erase-then-append (keys stay unique, and eviction in the
  source selects victims by timestamp, not by dict position).
* The external completion provider is modelled by `AIOutcome`: either the
  reply text of a successful call or `failure` for any raised exception
  (timeout, malformed response, auth failure).
* Python truthiness tests on optional strings (`if ai_response:`) are
  modelled by `pyTruthy`, which is false for `none` and for the empty string.
-/

namespace ErixBot

/-- Outcome of one call to the external completion provider: the raw reply
text, or `failure` standing for any exception raised by the call. -/
inductive AIOutcome where
  | success (text : String)
  | failure
deriving DecidableEq

/-- Python truthiness of an optional string: `None` and `""` are falsy. -/
def pyTruthy : Option String → Bool
  | none => false
  | some s => !(s == "")

/-- Python `str.strip()`: drop leading and trailing whitespace. -/
def pyStrip (s : String) : String :=
  String.mk (((s.toList.dropWhile Char.isWhitespace).reverse.dropWhile
    Char.isWhitespace).reverse)

/-- Python `str.lower()` (per-character lowering). -/
def pyLower (s : String) : String :=
  String.mk (s.toList.map Char.toLower)

/-- Substring test `needle in pyLower hay`, modelling `needle in hay.lower()`
where the needle is already lower-case in the source. -/
def containsLowered (hay needle : String) : Bool :=
  decide (needle.toList <:+: (pyLower hay).toList)

/-- Embedding of escalation_keywords from src/app/bot.py (identical list in
src/app/services/ai_services.py). -/
def escalation_keywords : List String :=
  ["richiede assistenza tecnica specializzata",
   "tecnico ti contatterà",
   "non posso risolvere",
   "troppo complesso",
   "intervento manuale"]

/-- Whether a (stripped) provider reply contains any escalation marker. -/
def containsMarker (t : String) : Bool :=
  escalation_keywords.any (fun k => containsLowered t k)

namespace Bot

/-- Embedding of get_ai_response from src/app/bot.py: on an exception, return `None`;
otherwise strip the reply, return `None` when it contains an escalation
marker phrase, and the stripped reply text otherwise. -/
def get_ai_response : AIOutcome → Option String
  | .failure => none
  | .success text =>
      let ai_text := pyStrip text
      if containsMarker ai_text then none else some ai_text

end Bot

/-! ## AIResponseCache (src/app/services/ai_services.py) -/

/-- One entry of `AIResponseCache.cache`: dict key, cached response and
insertion timestamp (seconds). -/
structure CacheEntry where
  key : String
  response : String
  timestamp : Int
deriving DecidableEq

namespace AIResponseCache

/-- Maximum size of the global `AIResponseCache`. -/
def maxSize : Nat := 500

/-- The 24-hour time-to-live, in seconds. -/
def ttlSeconds : Int := 86400

/-- Number of oldest entries removed per capacity eviction. -/
def batchSize : Nat := 50

/-- Key of the cache dict: problem hash and context hash joined by a colon. -/
def cacheKey (problemHash contextHash : String) : String :=
  problemHash ++ ":" ++ contextHash

/-- Embedding of AIResponseCache.get: return the cached response when the entry is
younger than 24 hours; delete the entry and miss when it has expired; miss
when absent.  Returns the (possibly shrunk) cache alongside the result. -/
def get (cache : List CacheEntry) (problemHash contextHash : String) (now : Int) :
    Option String × List CacheEntry :=
  let k := cacheKey problemHash contextHash
  match cache.find? (fun e => e.key == k) with
  | some e =>
      if now - e.timestamp < ttlSeconds then (some e.response, cache)
      else (none, cache.filter (fun e2 => !(e2.key == k)))
  | none => (none, cache)

/-- Remove the first entry holding the minimal timestamp. -/
def eraseOldest : List CacheEntry → List CacheEntry
  | [] => []
  | e :: rest =>
      if rest.all (fun e2 => e.timestamp ≤ e2.timestamp) then rest
      else e :: eraseOldest rest

/-- Remove `n` oldest entries (all of them when fewer than `n` remain),
modelling deletion of `sorted(keys, key=timestamp)[:50]`. -/
def evictBatch : Nat → List CacheEntry → List CacheEntry
  | 0, c => c
  | n + 1, c => evictBatch n (eraseOldest c)

/-- Embedding of AIResponseCache.set: when the cache has reached max_size, first evict
the 50 oldest entries; then store the response under the combined key
(overwriting any previous entry for that key). -/
def set (cache : List CacheEntry) (problemHash contextHash response : String)
    (now : Int) : List CacheEntry :=
  let k := cacheKey problemHash contextHash
  let c1 := if maxSize ≤ cache.length then evictBatch batchSize cache else cache
  c1.filter (fun e => !(e.key == k)) ++ [⟨k, response, now⟩]

end AIResponseCache

/-- A sequence of `set` operations (problem hash, context hash, response,
timestamp) applied in order. -/
def applyInserts (cache : List CacheEntry)
    (ops : List (String × String × String × Int)) : List CacheEntry :=
  ops.foldl (fun acc op => AIResponseCache.set acc op.1 op.2.1 op.2.2.1 op.2.2.2) cache

/-! ## functools.lru_cache wrapper `get_cached_ai_response` -/

/-- One memo entry of the `functools.lru_cache(maxsize=100)` wrapper around
`get_cached_ai_response`: argument pair and memoized result. -/
abbrev LruEntry : Type := (String × String) × Option String

/-- Capacity of the lru memo. -/
def lruMaxSize : Nat := 100

/-- On a memo hit the entry is moved to the most-recently-used end. -/
def lruTouch (memo : List LruEntry) (k : String × String) (v : Option String) :
    List LruEntry :=
  memo.filter (fun e => !(e.1 == k)) ++ [(k, v)]

/-- On a memo miss the computed value is stored; when the memo exceeds
`maxsize`, least-recently-used entries are dropped from the front. -/
def lruInsert (memo : List LruEntry) (k : String × String) (v : Option String) :
    List LruEntry :=
  let m := memo ++ [(k, v)]
  if lruMaxSize < m.length then m.drop (m.length - lruMaxSize) else m

/-- Result of one pipeline cache lookup: the value handed back to the caller
and the updated memo and response-cache states. -/
structure PipelineLookup where
  result : Option String
  memo : List LruEntry
  respCache : List CacheEntry
deriving DecidableEq

/-- Embedding of get_cached_ai_response (src/app/services/ai_services.py), with
its `@lru_cache(maxsize=100)` decorator: a memoized argument pair returns the
memoized value without consulting `AIResponseCache`; otherwise the underlying
`AIResponseCache.get` runs and its result is memoized. -/
def get_cached_ai_response (memo : List LruEntry) (cache : List CacheEntry)
    (problemHash contextHash : String) (now : Int) : PipelineLookup :=
  let k := (problemHash, contextHash)
  match memo.find? (fun e => e.1 == k) with
  | some e => ⟨e.2, lruTouch memo k e.2, cache⟩
  | none =>
      let r := AIResponseCache.get cache problemHash contextHash now
      ⟨r.1, lruInsert memo k r.1, r.2⟩

/-! ## EnhancedAIService (src/app/services/ai_services.py) -/

/-- Mutable state owned by the AI service layer: the lru memo of
`get_cached_ai_response` and the global `ai_response_cache`. -/
structure AIServiceState where
  memo : List LruEntry
  respCache : List CacheEntry
deriving DecidableEq

/-- The fixed reply returned when no `OPENAI_API_KEY` is configured. -/
def mockResponse : String :=
  "Risposta AI simulata per test - configurare OPENAI_API_KEY per risposte reali."

/-- The `context_hash` computed by `EnhancedAIService.get_ai_response`:
`"none"` unless a truthy ticket id is given, in which case the hash of the
stringified conversation context (`ctx` abstracts
`str(conversation_manager.get_context(ticket_id))`). -/
def contextHash (hashFn : String → String) (ctx : Nat → String)
    (ticketId : Option Nat) : String :=
  match ticketId with
  | some t => if t == 0 then "none" else hashFn (ctx t)
  | none => "none"

namespace EnhancedAIService

/-- The cache-lookup stage of `EnhancedAIService.get_ai_response`: hash the
problem text and context, then run the memoized pipeline lookup. -/
def lookupStage (hashFn : String → String) (ctx : Nat → String)
    (problem : String) (ticketId : Option Nat) (st : AIServiceState)
    (now : Int) : Option String × AIServiceState :=
  let ph := hashFn problem
  let ch := contextHash hashFn ctx ticketId
  let r := get_cached_ai_response st.memo st.respCache ph ch now
  (r.result, ⟨r.memo, r.respCache⟩)

/-- Embedding of EnhancedAIService.get_ai_response:
* without a configured client, return the fixed mock reply and touch nothing;
* otherwise look up the cache (truthy hit is returned as is);
* on a miss, call the provider; an exception yields `None`;
* a successful reply is stripped, stored into `ai_response_cache`
  unconditionally, and then returned — unless it contains an escalation
  marker phrase, in which case `None` is returned (the entry stays cached). -/
def get_ai_response (hashFn : String → String) (ctx : Nat → String)
    (client : Option Unit) (provider : AIOutcome) (problem : String)
    (ticketId : Option Nat) (st : AIServiceState) (now : Int) :
    Option String × AIServiceState :=
  match client with
  | none => (some mockResponse, st)
  | some _ =>
      let L := lookupStage hashFn ctx problem ticketId st now
      let cached := L.1
      let st1 := L.2
      if pyTruthy cached then (cached, st1)
      else
        match provider with
        | .failure => (none, st1)
        | .success text =>
            let ai_text := pyStrip text
            let ph := hashFn problem
            let ch := contextHash hashFn ctx ticketId
            let cache2 := AIResponseCache.set st1.respCache ph ch ai_text now
            if containsMarker ai_text then (none, ⟨st1.memo, cache2⟩)
            else (some ai_text, ⟨st1.memo, cache2⟩)

end EnhancedAIService

/-! ## Data model (src/app/models.py) and bot state -/

/-- Ticket status strings: `open`, `escalated`, `closed`. -/
inductive TicketStatus where
  | opened | escalated | closed
deriving DecidableEq

/-- Renewal request status strings. -/
inductive RenewalStatus where
  | pending | approved | rejected | contested
deriving DecidableEq

/-- Row of the Ticket table. -/
structure Ticket where
  id : Nat
  user_id : Nat
  title : String
  description : String
  status : TicketStatus
deriving DecidableEq

/-- Row of the TicketMessage table. -/
structure TicketMessage where
  ticket_id : Nat
  user_id : Nat
  message : String
  is_admin : Bool
  is_ai : Bool
deriving DecidableEq

/-- Row of the RenewalRequest table. -/
structure RenewalRequest where
  id : Nat
  user_id : Nat
  list_name : String
  months : Nat
  cost : String
  status : RenewalStatus
deriving DecidableEq

/-- Row of the List table (subscription list); expiry in days, `none` when unset. -/
structure ListRecord where
  name : String
  cost : String
  expiry_date : Option Int
  notes : Option String
deriving DecidableEq

/-- Kind of an outbound `bot.send_message` push. -/
inductive MsgKind where
  | renewal_submitted | renewal_approved | renewal_rejected | renewal_contested
deriving DecidableEq

/-- One outbound push: destination chat id and payload kind. -/
structure SentMessage where
  chat_id : Nat
  kind : MsgKind
deriving DecidableEq

/-- The persistent state the handlers in src/app/bot.py read and write,
together with the stream of outbound pushes. -/
structure BotState where
  tickets : List Ticket
  ticket_messages : List TicketMessage
  renewals : List RenewalRequest
  lists : List ListRecord
  admin_ids : List Nat
  sent : List SentMessage
  next_ticket_id : Nat
deriving DecidableEq

/-- Update the first element satisfying `p` (SQLAlchemy `first()` returns one
row object and mutations touch only it). -/
def updateFirst (p : α → Bool) (f : α → α) : List α → List α
  | [] => []
  | x :: xs => if p x then f x :: xs else x :: updateFirst p f xs

/-- The ownership filter `Ticket.id == ticket_id, Ticket.user_id == user_id`. -/
def ticketOwnedBy (ticket_id user_id : Nat) (t : Ticket) : Bool :=
  t.id == ticket_id && t.user_id == user_id

/-- Lookup of a renewal request by id. -/
def findRenewal (s : BotState) (renewal_id : Nat) : Option RenewalRequest :=
  s.renewals.find? (fun r => r.id == renewal_id)

/-- Lookup of a subscription list by name (`first()` row). -/
def findListByName (s : BotState) (name : String) : Option ListRecord :=
  s.lists.find? (fun l => l.name == name)

/-- The expiry date of the named list, when such a list exists. -/
def listExpiry (s : BotState) (name : String) : Option (Option Int) :=
  (findListByName s name).map (fun l => l.expiry_date)

/-- Outcome of a user reply on a ticket. -/
inductive ReplyOutcome where
  | notFound | resolved | escalated
deriving DecidableEq

/-- Outcome of an admin renewal callback. -/
inductive CallbackResult where
  | access_denied | not_found | ok
deriving DecidableEq

namespace Bot

/-- Embedding of handle_ticket_reply (src/app/bot.py): only existence and ownership of
the ticket are checked (there is no closed-status guard); the user message is
appended, resolution is attempted, and on a falsy AI result the ticket status
is set to `escalated` whatever it was before. -/
def handle_ticket_reply (s : BotState) (user_id ticket_id : Nat) (text : String)
    (ai : AIOutcome) : BotState × ReplyOutcome :=
  match s.tickets.find? (ticketOwnedBy ticket_id user_id) with
  | none => (s, .notFound)
  | some _ =>
      let user_msg : TicketMessage :=
        { ticket_id := ticket_id, user_id := user_id, message := text,
          is_admin := false, is_ai := false }
      let resp := get_ai_response ai
      if pyTruthy resp then
        let r := resp.getD ""
        let ai_msg : TicketMessage :=
          { ticket_id := ticket_id, user_id := 0, message := r,
            is_admin := false, is_ai := true }
        ({ s with ticket_messages := s.ticket_messages ++ [user_msg, ai_msg] },
         .resolved)
      else
        let tickets2 := updateFirst (ticketOwnedBy ticket_id user_id)
          (fun t => { t with status := .escalated }) s.tickets
        ({ s with
            ticket_messages := s.ticket_messages ++ [user_msg],
            tickets := tickets2 },
         .escalated)

/-- Embedding of the ticket_description branch of `handle_message`
(src/app/bot.py): create the ticket, append the description as the first user
message, attempt resolution; on a truthy AI reply append it and keep status
`open`; otherwise set status `escalated`.  No outbound push is emitted in
either branch (escalation is only written to the log). -/
def handle_ticket_description (s : BotState) (user_id : Nat)
    (title desc : String) (ai : AIOutcome) : BotState × Nat :=
  let tid := s.next_ticket_id
  let base := { s with next_ticket_id := tid + 1 }
  let t : Ticket :=
    { id := tid, user_id := user_id, title := title, description := desc,
      status := .opened }
  let user_msg : TicketMessage :=
    { ticket_id := tid, user_id := user_id, message := desc,
      is_admin := false, is_ai := false }
  let resp := get_ai_response ai
  if pyTruthy resp then
    let r := resp.getD ""
    let ai_msg : TicketMessage :=
      { ticket_id := tid, user_id := 0, message := r,
        is_admin := false, is_ai := true }
    ({ base with
        tickets := base.tickets ++ [t],
        ticket_messages := base.ticket_messages ++ [user_msg, ai_msg] }, tid)
  else
    ({ base with
        tickets := base.tickets ++ [{ t with status := .escalated }],
        ticket_messages := base.ticket_messages ++ [user_msg] }, tid)

/-- Embedding of approve_renewal_callback (src/app/bot.py): after the admin check and
the existence check, extend the named list expiry by `months * 30` days from
its current expiry when one is set (from "now" only when the expiry is null),
set the request status to `approved` — with no guard on its previous status —
and push an approval notice to the requester. -/
def approve_renewal_callback (s : BotState) (admin_id renewal_id : Nat)
    (now : Int) : BotState × CallbackResult :=
  if !(s.admin_ids.contains admin_id) then (s, .access_denied)
  else
    match findRenewal s renewal_id with
    | none => (s, .not_found)
    | some renewal =>
        let s1 :=
          match findListByName s renewal.list_name with
          | some lst =>
              let current_expiry := lst.expiry_date.getD now
              let new_expiry := current_expiry + (renewal.months : Int) * 30
              let lists2 := updateFirst (fun l : ListRecord => l.name == renewal.list_name)
                (fun l => { l with expiry_date := some new_expiry }) s.lists
              { s with lists := lists2 }
          | none => s
        let rens2 := updateFirst (fun r : RenewalRequest => r.id == renewal_id)
          (fun r => { r with status := .approved }) s1.renewals
        let s2 := { s1 with renewals := rens2 }
        let notice : SentMessage :=
          { chat_id := renewal.user_id, kind := .renewal_approved }
        ({ s2 with sent := s2.sent ++ [notice] }, .ok)

/-- Embedding of reject_renewal_callback (src/app/bot.py): set status rejected with no
guard on the previous status, touch no list, push a rejection notice. -/
def reject_renewal_callback (s : BotState) (admin_id renewal_id : Nat) :
    BotState × CallbackResult :=
  if !(s.admin_ids.contains admin_id) then (s, .access_denied)
  else
    match findRenewal s renewal_id with
    | none => (s, .not_found)
    | some renewal =>
        let rens2 := updateFirst (fun r : RenewalRequest => r.id == renewal_id)
          (fun r => { r with status := .rejected }) s.renewals
        let s2 := { s with renewals := rens2 }
        let notice : SentMessage :=
          { chat_id := renewal.user_id, kind := .renewal_rejected }
        ({ s2 with sent := s2.sent ++ [notice] }, .ok)

/-- Embedding of contest_renewal_callback (src/app/bot.py): set status contested with
no guard on the previous status, push a contestation notice. -/
def contest_renewal_callback (s : BotState) (admin_id renewal_id : Nat) :
    BotState × CallbackResult :=
  if !(s.admin_ids.contains admin_id) then (s, .access_denied)
  else
    match findRenewal s renewal_id with
    | none => (s, .not_found)
    | some renewal =>
        let rens2 := updateFirst (fun r : RenewalRequest => r.id == renewal_id)
          (fun r => { r with status := .contested }) s.renewals
        let s2 := { s with renewals := rens2 }
        let notice : SentMessage :=
          { chat_id := renewal.user_id, kind := .renewal_contested }
        ({ s2 with sent := s2.sent ++ [notice] }, .ok)

end Bot

/-! ## Concrete demonstration inputs -/

/-- A pending 1-month renewal for list `Alpha` (expiry day 10), admin 9. -/
def c1State : BotState :=
  { tickets := [], ticket_messages := [],
    renewals := [⟨1, 5, "Alpha", 1, "15", .pending⟩],
    lists := [⟨"Alpha", "15", some 10, none⟩],
    admin_ids := [9], sent := [], next_ticket_id := 1 }

/-- First approval of renewal 1 in `c1State`. -/
def c1Approve1 : BotState × CallbackResult :=
  Bot.approve_renewal_callback c1State 9 1 0

/-- Second approval of the same, already approved, renewal. -/
def c1Approve2 : BotState × CallbackResult :=
  Bot.approve_renewal_callback c1Approve1.1 9 1 0

/-- A renewal that is already `approved`, its list at expiry day 40. -/
def c1WitState : BotState :=
  { tickets := [], ticket_messages := [],
    renewals := [⟨1, 5, "Alpha", 1, "15", .approved⟩],
    lists := [⟨"Alpha", "15", some 40, none⟩],
    admin_ids := [9], sent := [], next_ticket_id := 1 }

/-- A single closed ticket owned by user 5. -/
def c2State : BotState :=
  { tickets := [⟨1, 5, "t", "d", .closed⟩], ticket_messages := [], renewals := [],
    lists := [], admin_ids := [], sent := [], next_ticket_id := 2 }

/-- User 5 replies to their closed ticket and the provider call fails. -/
def c2Run : BotState × ReplyOutcome :=
  Bot.handle_ticket_reply c2State 5 1 "ancora bloccato" .failure

/-- Pending 1-month renewal whose list expired 100 days ago. -/
def c3State : BotState :=
  { tickets := [], ticket_messages := [],
    renewals := [⟨1, 5, "Alpha", 1, "15", .pending⟩],
    lists := [⟨"Alpha", "15", some (-100), none⟩],
    admin_ids := [9], sent := [], next_ticket_id := 1 }

/-- Approval of the expired-list renewal at day 0. -/
def c3Run : BotState × CallbackResult :=
  Bot.approve_renewal_callback c3State 9 1 0

/-- Pending 1-month renewal whose list expires 10 days in the future. -/
def c3WitState : BotState :=
  { tickets := [], ticket_messages := [],
    renewals := [⟨1, 5, "Alpha", 1, "15", .pending⟩],
    lists := [⟨"Alpha", "15", some 10, none⟩],
    admin_ids := [9], sent := [], next_ticket_id := 1 }

/-- The AI service with empty memo and empty response cache. -/
def c4State : AIServiceState := ⟨[], []⟩

/-- A provider reply consisting exactly of an escalation marker phrase. -/
def c4Run : Option String × AIServiceState :=
  EnhancedAIService.get_ai_response id (fun _ => "") (some ())
    (.success "troppo complesso") "p" none c4State 0

/-- Empty bot state with admin 9, next ticket id 1. -/
def c5State : BotState :=
  { tickets := [], ticket_messages := [], renewals := [], lists := [],
    admin_ids := [9], sent := [], next_ticket_id := 1 }

/-- User 7 opens a ticket and the provider call raises/times out. -/
def c5Run : BotState × Nat :=
  Bot.handle_ticket_description c5State 7 "No video" "stream freezes" .failure

/-- Conversation-context stub used in the C7 trace. -/
def c7Ctx : Nat → String := fun _ => ""

/-- Step 1 of the stale-cache trace: at second 0 the service resolves problem
`"p"`, inserting the reply into the response cache and memoizing the
pre-insertion miss (`none`) in the lru memo. -/
def c7S1 : AIServiceState :=
  (EnhancedAIService.get_ai_response id c7Ctx (some ())
    (.success "risposta utile") "p" none ⟨[], []⟩ 0).2

/-- Step 2: one hundred pipeline lookups on distinct other keys evict the
memoized miss for `"p"` from the lru memo (maxsize 100). -/
def c7S2 : AIServiceState :=
  (List.range 100).foldl
    (fun st i =>
      let r := get_cached_ai_response st.memo st.respCache (toString i) "none" 0
      ⟨r.memo, r.respCache⟩) c7S1

/-- Step 3: a lookup at second 3600 (inside the TTL) hits the response cache
and memoizes the reply in the lru memo. -/
def c7B : PipelineLookup := get_cached_ai_response c7S2.memo c7S2.respCache "p" "none" 3600

/-- The state after step 3. -/
def c7S3 : AIServiceState := ⟨c7B.memo, c7B.respCache⟩

/-- Step 4: a lookup at second 90000, one hour after the 24h TTL of the entry
inserted at second 0 has elapsed. -/
def c7C : PipelineLookup := get_cached_ai_response c7S3.memo c7S3.respCache "p" "none" 90000

/-- A response cache holding exactly `max_size` distinct entries. -/
def demoFullCache : List CacheEntry :=
  (List.range AIResponseCache.maxSize).map (fun i => ⟨toString i, "r", (i : Int)⟩)

/-- A pending renewal whose target list name matches no stored list. -/
def c10State : BotState :=
  { tickets := [], ticket_messages := [],
    renewals := [⟨1, 5, "Ghost", 3, "45", .pending⟩],
    lists := [⟨"Alpha", "15", some 10, none⟩],
    admin_ids := [9], sent := [], next_ticket_id := 1 }

/-- A closed ticket owned by user 5, used to exercise the reply contract. -/
def c2WitState : BotState :=
  { tickets := [⟨3, 5, "t2", "d2", .closed⟩], ticket_messages := [], renewals := [],
    lists := [], admin_ids := [], sent := [], next_ticket_id := 4 }

/-! ## Helper lemmas -/

theorem updateFirst_find?_same {α : Type} (p : α → Bool) (f : α → α)
    (hf : ∀ a, p a = true → p (f a) = true) :
    ∀ (l : List α) (x : α), l.find? p = some x →
      (updateFirst p f l).find? p = some (f x) := by
  intro l
  induction l with
  | nil => intro x hx; simp at hx
  | cons a as ih =>
      intro x hx
      by_cases hpa : p a
      · rw [List.find?_cons_of_pos _ hpa] at hx
        cases hx
        unfold updateFirst
        rw [if_pos hpa]
        exact List.find?_cons_of_pos _ (hf a hpa)
      · rw [List.find?_cons_of_neg _ hpa] at hx
        unfold updateFirst
        rw [if_neg hpa, List.find?_cons_of_neg _ hpa]
        exact ih x hx

theorem eraseOldest_length (c : List CacheEntry) (hc : c ≠ []) :
    (AIResponseCache.eraseOldest c).length = c.length - 1 := by
  induction c with
  | nil => simp at hc
  | cons e rest ih =>
      unfold AIResponseCache.eraseOldest
      by_cases h : rest.all (fun e2 => decide (e.timestamp ≤ e2.timestamp))
      · simp [h]
      · have hrest : rest ≠ [] := by
          intro hr
          subst hr
          simp at h
        have hlen : rest.length ≠ 0 := by
          simpa [List.length_eq_zero] using hrest
        simp only [h, if_neg, Bool.false_eq_true, not_false_iff, List.length_cons]
        rw [ih hrest]
        omega

theorem evictBatch_length (n : Nat) :
    ∀ c : List CacheEntry, (AIResponseCache.evictBatch n c).length = c.length - n := by
  induction n with
  | zero => intro c; simp [AIResponseCache.evictBatch]
  | succ m ih =>
      intro c
      unfold AIResponseCache.evictBatch
      rcases eq_or_ne c [] with hc | hc
      · subst hc
        rw [ih]
        simp [AIResponseCache.eraseOldest]
      · have hlen : c.length ≠ 0 := by
          simpa [List.length_eq_zero] using hc
        rw [ih, eraseOldest_length c hc]
        omega

theorem set_length_aux (c : List CacheEntry) (ph ch r : String) (t : Int) :
    (AIResponseCache.set c ph ch r t).length ≤
      (if AIResponseCache.maxSize ≤ c.length
        then AIResponseCache.evictBatch AIResponseCache.batchSize c
        else c).length + 1 := by
  unfold AIResponseCache.set
  simp only [List.length_append, List.length_cons, List.length_nil]
  have hfl := List.length_filter_le
    (fun e => !(e.key == AIResponseCache.cacheKey ph ch))
    (if AIResponseCache.maxSize ≤ c.length
      then AIResponseCache.evictBatch AIResponseCache.batchSize c else c)
  omega

theorem set_length_le (c : List CacheEntry) (ph ch r : String) (t : Int)
    (h : c.length ≤ AIResponseCache.maxSize) :
    (AIResponseCache.set c ph ch r t).length ≤ AIResponseCache.maxSize := by
  have hkey := set_length_aux c ph ch r t
  by_cases hfull : AIResponseCache.maxSize ≤ c.length
  · rw [if_pos hfull] at hkey
    have hev := evictBatch_length AIResponseCache.batchSize c
    simp only [AIResponseCache.maxSize, AIResponseCache.batchSize] at *
    omega
  · rw [if_neg hfull] at hkey
    simp only [AIResponseCache.maxSize] at *
    omega

/-! ## Claim theorems -/

/-- Claim C6 (confirmed): `get_ai_response` returns `None` exactly when the
provider call fails or the (stripped, lowered) reply contains one of the
fixed escalation marker phrases as a substring; otherwise it returns the
reply text. -/
theorem resolve_none_iff_marker_or_failure (o : AIOutcome) :
    (Bot.get_ai_response o = none ↔
      o = .failure ∨ ∃ t, o = .success t ∧ containsMarker (pyStrip t) = true) ∧
    (∀ t, o = .success t → containsMarker (pyStrip t) = false →
      Bot.get_ai_response o = some (pyStrip t)) := by
  constructor
  · cases o with
    | failure => simp [Bot.get_ai_response]
    | success t =>
        simp only [Bot.get_ai_response]
        by_cases h : containsMarker (pyStrip t)
        · simp [h]
        · simp [h]
  · intro t ht hm
    subst ht
    simp [Bot.get_ai_response, hm]

/-- Witness for C6: a marker-free reply is returned as the resolution. -/
theorem resolve_none_iff_marker_or_failure_witness :
    Bot.get_ai_response (.success "riavvia il Firestick") = some "riavvia il Firestick" :=
  (resolve_none_iff_marker_or_failure (.success "riavvia il Firestick")).2
    "riavvia il Firestick" rfl (by decide)

/-- Claim C9 (confirmed): with no configured client, the service returns the
fixed mock reply for every input and touches neither the cache nor the memo,
so nothing is escalated and the marker check is bypassed. -/
theorem mock_mode_always_replies (hashFn : String → String) (ctx : Nat → String)
    (provider : AIOutcome) (problem : String) (ticketId : Option Nat)
    (st : AIServiceState) (now : Int) :
    EnhancedAIService.get_ai_response hashFn ctx none provider problem ticketId st now
      = (some mockResponse, st) := rfl

/-- Claim C8 (confirmed): starting from any cache within the capacity bound,
any sequence of inserts keeps the live entry count at most `max_size` (500);
moreover an insert into a full cache first evicts a batch of 50 oldest
entries, so the count right after such an insert is at most 451. -/
theorem cache_capacity_invariant (c : List CacheEntry)
    (h : c.length ≤ AIResponseCache.maxSize)
    (ops : List (String × String × String × Int)) :
    (applyInserts c ops).length ≤ AIResponseCache.maxSize ∧
    (∀ ph ch r t, AIResponseCache.maxSize ≤ c.length →
      (AIResponseCache.set c ph ch r t).length ≤ AIResponseCache.maxSize - 49) := by
  constructor
  · induction ops generalizing c with
    | nil => simpa [applyInserts] using h
    | cons op ops ih =>
        have hstep := set_length_le c op.1 op.2.1 op.2.2.1 op.2.2.2 h
        simpa [applyInserts, List.foldl_cons] using ih _ hstep
  · intro ph ch r t hfull
    have hkey := set_length_aux c ph ch r t
    rw [if_pos hfull] at hkey
    have hev := evictBatch_length AIResponseCache.batchSize c
    simp only [AIResponseCache.maxSize, AIResponseCache.batchSize] at *
    omega

set_option maxRecDepth 40000 in
/-- Witness for C8: a full 500-entry cache stays within bound after an
insert, and the insert shrinks it by a 50-entry batch (to at most 451). -/
theorem cache_capacity_invariant_witness :
    (applyInserts demoFullCache [("p", "none", "r", 600)]).length
      ≤ AIResponseCache.maxSize ∧
    (AIResponseCache.set demoFullCache "p" "none" "r" 600).length
      ≤ AIResponseCache.maxSize - 49 := by
  have hlen : demoFullCache.length = AIResponseCache.maxSize := by decide
  exact ⟨(cache_capacity_invariant demoFullCache (le_of_eq hlen)
            [("p", "none", "r", 600)]).1,
         (cache_capacity_invariant demoFullCache (le_of_eq hlen) []).2
            "p" "none" "r" 600 (ge_of_eq hlen)⟩

theorem approve_renewal_spec (s : BotState) (admin_id renewal_id : Nat)
    (now : Int) (renewal : RenewalRequest)
    (hadm : s.admin_ids.contains admin_id = true)
    (hr : findRenewal s renewal_id = some renewal) :
    (Bot.approve_renewal_callback s admin_id renewal_id now).2 = .ok ∧
    findRenewal (Bot.approve_renewal_callback s admin_id renewal_id now).1 renewal_id
      = some { renewal with status := .approved } ∧
    (Bot.approve_renewal_callback s admin_id renewal_id now).1.sent
      = s.sent ++ [{ chat_id := renewal.user_id, kind := .renewal_approved }] ∧
    (∀ lst, findListByName s renewal.list_name = some lst →
      listExpiry (Bot.approve_renewal_callback s admin_id renewal_id now).1
          renewal.list_name
        = some (some (lst.expiry_date.getD now + (renewal.months : Int) * 30))) ∧
    (findListByName s renewal.list_name = none →
      (Bot.approve_renewal_callback s admin_id renewal_id now).1.lists = s.lists) := by
  have hr2 : s.renewals.find? (fun r => r.id == renewal_id) = some renewal := hr
  refine ⟨?_, ?_, ?_, ?_, ?_⟩
  · simp only [Bot.approve_renewal_callback, hadm, Bool.not_true, Bool.false_eq_true,
      if_false, hr]
  · rcases hfl : findListByName s renewal.list_name with _ | lst <;>
      (simp only [Bot.approve_renewal_callback, hadm, Bool.not_true, Bool.false_eq_true,
        if_false, hr, hfl];
       exact updateFirst_find?_same (fun r => r.id == renewal_id)
        (fun r => { r with status := RenewalStatus.approved }) (fun a ha => ha)
        s.renewals renewal hr2)
  · rcases hfl : findListByName s renewal.list_name with _ | lst <;>
      simp only [Bot.approve_renewal_callback, hadm, Bool.not_true, Bool.false_eq_true,
        if_false, hr, hfl]
  · intro lst hlst
    have hfl2 : s.lists.find? (fun l => l.name == renewal.list_name) = some lst := hlst
    have hfind := updateFirst_find?_same (fun l : ListRecord => l.name == renewal.list_name) (fun l => { l with expiry_date := some (lst.expiry_date.getD now + (renewal.months : Int) * 30) }) (fun a ha => ha) s.lists lst hfl2
    simp only [Bot.approve_renewal_callback, hadm, Bool.not_true, Bool.false_eq_true,
      if_false, hr, hlst, hfl2, listExpiry, findListByName]
    rw [hfind]
    rfl
  · intro hnone
    simp only [Bot.approve_renewal_callback, hadm, Bool.not_true, Bool.false_eq_true,
      if_false, hr, hnone]

theorem reject_renewal_spec (s : BotState) (admin_id renewal_id : Nat)
    (renewal : RenewalRequest)
    (hadm : s.admin_ids.contains admin_id = true)
    (hr : findRenewal s renewal_id = some renewal) :
    (Bot.reject_renewal_callback s admin_id renewal_id).2 = .ok ∧
    findRenewal (Bot.reject_renewal_callback s admin_id renewal_id).1 renewal_id
      = some { renewal with status := .rejected } ∧
    (Bot.reject_renewal_callback s admin_id renewal_id).1.sent
      = s.sent ++ [{ chat_id := renewal.user_id, kind := .renewal_rejected }] ∧
    (Bot.reject_renewal_callback s admin_id renewal_id).1.lists = s.lists := by
  have hr2 : s.renewals.find? (fun r => r.id == renewal_id) = some renewal := hr
  refine ⟨?_, ?_, ?_, ?_⟩ <;>
    simp only [Bot.reject_renewal_callback, hadm, Bool.not_true, Bool.false_eq_true,
      if_false, hr]
  exact updateFirst_find?_same (fun r => r.id == renewal_id)
    (fun r => { r with status := RenewalStatus.rejected }) (fun a ha => ha)
    s.renewals renewal hr2

theorem contest_renewal_spec (s : BotState) (admin_id renewal_id : Nat)
    (renewal : RenewalRequest)
    (hadm : s.admin_ids.contains admin_id = true)
    (hr : findRenewal s renewal_id = some renewal) :
    (Bot.contest_renewal_callback s admin_id renewal_id).2 = .ok ∧
    findRenewal (Bot.contest_renewal_callback s admin_id renewal_id).1 renewal_id
      = some { renewal with status := .contested } := by
  have hr2 : s.renewals.find? (fun r => r.id == renewal_id) = some renewal := hr
  refine ⟨?_, ?_⟩ <;>
    simp only [Bot.contest_renewal_callback, hadm, Bool.not_true, Bool.false_eq_true,
      if_false, hr]
  exact updateFirst_find?_same (fun r => r.id == renewal_id)
    (fun r => { r with status := RenewalStatus.contested }) (fun a ha => ha)
    s.renewals renewal hr2

/-- Claim C1 (counterexample): there is no `AlreadyTerminal` guard.  After a
first approval of renewal 1 its status is terminal (`approved`), yet a second
`approve` call still returns ok and extends the list expiry a second time:
day 10 becomes 40 after the first call and 70 after the second. -/
theorem approve_twice_counterexample :
    findRenewal c1Approve1.1 1 = some ⟨1, 5, "Alpha", 1, "15", .approved⟩ ∧
    c1Approve2.2 = .ok ∧
    listExpiry c1Approve1.1 "Alpha" = some (some 40) ∧
    listExpiry c1Approve2.1 "Alpha" = some (some 70) := by decide

/-- Claim C1 (amended): a decide call on a renewal whose status is already
terminal (`approved` or `rejected`) does not fail and is not a no-op: approve
succeeds and extends the target expiry by `months * 30` again, reject and
contest succeed and overwrite the status. -/
theorem decide_no_terminal_guard (s : BotState) (admin_id renewal_id : Nat)
    (now : Int) (renewal : RenewalRequest) (lst : ListRecord)
    (hadm : s.admin_ids.contains admin_id = true)
    (hr : findRenewal s renewal_id = some renewal)
    (_hterm : renewal.status = .approved ∨ renewal.status = .rejected)
    (hl : findListByName s renewal.list_name = some lst) :
    (Bot.approve_renewal_callback s admin_id renewal_id now).2 = .ok ∧
    listExpiry (Bot.approve_renewal_callback s admin_id renewal_id now).1
        renewal.list_name
      = some (some (lst.expiry_date.getD now + (renewal.months : Int) * 30)) ∧
    (Bot.reject_renewal_callback s admin_id renewal_id).2 = .ok ∧
    findRenewal (Bot.reject_renewal_callback s admin_id renewal_id).1 renewal_id
      = some { renewal with status := .rejected } ∧
    (Bot.contest_renewal_callback s admin_id renewal_id).2 = .ok ∧
    findRenewal (Bot.contest_renewal_callback s admin_id renewal_id).1 renewal_id
      = some { renewal with status := .contested } := by
  have ha := approve_renewal_spec s admin_id renewal_id now renewal hadm hr
  have hrj := reject_renewal_spec s admin_id renewal_id renewal hadm hr
  have hct := contest_renewal_spec s admin_id renewal_id renewal hadm hr
  exact ⟨ha.1, ha.2.2.2.1 lst hl, hrj.1, hrj.2.1, hct.1, hct.2⟩

/-- Witness for the amended C1: approving the already-approved renewal in
`c1WitState` extends the expiry from day 40 to day 70. -/
theorem decide_no_terminal_guard_witness :
    listExpiry (Bot.approve_renewal_callback c1WitState 9 1 0).1 "Alpha"
      = some (some 70) := by
  have h := decide_no_terminal_guard c1WitState 9 1 0
    ⟨1, 5, "Alpha", 1, "15", .approved⟩ ⟨"Alpha", "15", some 40, none⟩
    (by decide) (by decide) (Or.inl rfl) (by decide)
  simpa using h.2.1

/-- Claim C3 (counterexample): approving a 1-month renewal on a list that
expired 100 days ago yields expiry day -70 — computed from the stale expiry,
not from "now" (which would give day 30), and still in the past. -/
theorem approve_backdates_counterexample :
    c3Run.2 = .ok ∧
    listExpiry c3Run.1 "Alpha" = some (some (-70)) ∧
    ((-70 : Int) < 0 ∧ ((-70 : Int) ≠ 0 + 30)) := by decide

/-- Claim C3 (amended): on approval the new expiry is `old + months * 30`
whenever an expiry date is set — even one already in the past — and
`now + months * 30` only when the expiry is null; the expiry never decreases,
but it can remain in the past. -/
theorem approve_expiry_formula (s : BotState) (admin_id renewal_id : Nat)
    (now : Int) (renewal : RenewalRequest) (lst : ListRecord)
    (hadm : s.admin_ids.contains admin_id = true)
    (hr : findRenewal s renewal_id = some renewal)
    (hl : findListByName s renewal.list_name = some lst) :
    listExpiry (Bot.approve_renewal_callback s admin_id renewal_id now).1
        renewal.list_name
      = some (some (lst.expiry_date.getD now + (renewal.months : Int) * 30)) ∧
    (∀ e, lst.expiry_date = some e →
      e ≤ lst.expiry_date.getD now + (renewal.months : Int) * 30) ∧
    (lst.expiry_date = none →
      now ≤ lst.expiry_date.getD now + (renewal.months : Int) * 30) := by
  have hmonths : (0 : Int) ≤ (renewal.months : Int) * 30 := by positivity
  refine ⟨(approve_renewal_spec s admin_id renewal_id now renewal hadm hr).2.2.2.1
      lst hl, ?_, ?_⟩
  · intro e he
    rw [he]
    simp only [Option.getD_some]
    omega
  · intro he
    rw [he]
    simp only [Option.getD_none]
    omega

/-- Witness for the amended C3: the spec example — expiry 10 days in the
future, 1 month — yields new expiry `old + 30 = 40`. -/
theorem approve_expiry_formula_witness :
    listExpiry (Bot.approve_renewal_callback c3WitState 9 1 0).1 "Alpha"
      = some (some 40) := by
  have h := approve_expiry_formula c3WitState 9 1 0
    ⟨1, 5, "Alpha", 1, "15", .pending⟩ ⟨"Alpha", "15", some 10, none⟩
    (by decide) (by decide) (by decide)
  simpa using h.1

/-- Claim C10 (confirmed): approving a renewal whose target list name matches
no stored list succeeds with no error: the request becomes `approved`, the
requester is notified, and no list (hence no expiry) is modified. -/
theorem approve_missing_list_succeeds (s : BotState) (admin_id renewal_id : Nat)
    (now : Int) (renewal : RenewalRequest)
    (hadm : s.admin_ids.contains admin_id = true)
    (hr : findRenewal s renewal_id = some renewal)
    (hl : findListByName s renewal.list_name = none) :
    (Bot.approve_renewal_callback s admin_id renewal_id now).2 = .ok ∧
    (Bot.approve_renewal_callback s admin_id renewal_id now).1.lists = s.lists ∧
    findRenewal (Bot.approve_renewal_callback s admin_id renewal_id now).1 renewal_id
      = some { renewal with status := .approved } ∧
    (Bot.approve_renewal_callback s admin_id renewal_id now).1.sent
      = s.sent ++ [{ chat_id := renewal.user_id, kind := .renewal_approved }] := by
  have h := approve_renewal_spec s admin_id renewal_id now renewal hadm hr
  exact ⟨h.1, h.2.2.2.2 hl, h.2.1, h.2.2.1⟩

/-- Witness for C10: approving the renewal for the missing list `Ghost`. -/
theorem approve_missing_list_succeeds_witness :
    (Bot.approve_renewal_callback c10State 9 1 0).2 = .ok ∧
    (Bot.approve_renewal_callback c10State 9 1 0).1.lists = c10State.lists := by
  have h := approve_missing_list_succeeds c10State 9 1 0
    ⟨1, 5, "Ghost", 3, "45", .pending⟩ (by decide) (by decide) (by decide)
  exact ⟨h.1, h.2.1⟩

/-- Claim C2 (counterexample): there is no closed-status guard in
`handle_ticket_reply`.  A reply by the owner of closed ticket 1, with the
provider failing, is accepted: the user message is appended and the status
moves from `closed` to `escalated`. -/
theorem closed_ticket_reply_counterexample :
    c2Run.2 = .escalated ∧
    c2Run.1.ticket_messages = [⟨1, 5, "ancora bloccato", false, false⟩] ∧
    c2Run.1.tickets.find? (ticketOwnedBy 1 5) = some ⟨1, 5, "t", "d", .escalated⟩ := by
  decide

/-- Claim C2 (amended): a reply fails (`NotFound`, state untouched) exactly
when the ticket does not exist or is not owned by the requester.  For any
owned ticket — a closed one included — the reply is processed: the user
message is appended, resolution is attempted, and on a falsy AI result the
status is set to `escalated` (so a closed ticket can leave `closed`). -/
theorem handle_ticket_reply_spec (s : BotState) (user_id ticket_id : Nat)
    (text : String) (ai : AIOutcome) :
    (s.tickets.find? (ticketOwnedBy ticket_id user_id) = none →
      Bot.handle_ticket_reply s user_id ticket_id text ai = (s, .notFound)) ∧
    (∀ t, s.tickets.find? (ticketOwnedBy ticket_id user_id) = some t →
      (pyTruthy (Bot.get_ai_response ai) = false →
        (Bot.handle_ticket_reply s user_id ticket_id text ai).2 = .escalated ∧
        (Bot.handle_ticket_reply s user_id ticket_id text ai).1.ticket_messages
          = s.ticket_messages ++ [⟨ticket_id, user_id, text, false, false⟩] ∧
        (Bot.handle_ticket_reply s user_id ticket_id text ai).1.tickets.find?
            (ticketOwnedBy ticket_id user_id)
          = some { t with status := .escalated }) ∧
      (∀ r, Bot.get_ai_response ai = some r → (r == "") = false →
        (Bot.handle_ticket_reply s user_id ticket_id text ai).2 = .resolved ∧
        (Bot.handle_ticket_reply s user_id ticket_id text ai).1.ticket_messages
          = s.ticket_messages ++ [⟨ticket_id, user_id, text, false, false⟩,
              ⟨ticket_id, 0, r, false, true⟩] ∧
        (Bot.handle_ticket_reply s user_id ticket_id text ai).1.tickets
          = s.tickets)) := by
  constructor
  · intro hnone
    simp only [Bot.handle_ticket_reply, hnone]
  · intro t ht
    constructor
    · intro hfalse
      simp only [Bot.handle_ticket_reply, ht, hfalse, Bool.false_eq_true, if_false]
      refine ⟨by trivial, by trivial, ?_⟩
      exact updateFirst_find?_same (ticketOwnedBy ticket_id user_id)
        (fun t => { t with status := TicketStatus.escalated }) (fun a ha => ha)
        s.tickets t ht
    · intro r hresp hrne
      have htru : pyTruthy (Bot.get_ai_response ai) = true := by
        rw [hresp]
        simp [pyTruthy, hrne]
      have hgd : (Bot.get_ai_response ai).getD "" = r := by rw [hresp]; rfl
      simp only [Bot.handle_ticket_reply, ht, htru, if_true, hgd]
      exact ⟨by trivial, by trivial, by trivial⟩

/-- Witness for the amended C2: the owner of closed ticket 3 replies while
the provider fails; the call is accepted and the ticket escalates. -/
theorem handle_ticket_reply_spec_witness :
    (Bot.handle_ticket_reply c2WitState 5 3 "aiuto" .failure).2 = .escalated :=
  (((handle_ticket_reply_spec c2WitState 5 3 "aiuto" .failure).2
      ⟨3, 5, "t2", "d2", .closed⟩ (by decide)).1 (by decide)).1

/-- Claim C5 (counterexample): opening a ticket while the provider
raises/times out leaves the ticket `escalated` with zero assistant messages —
but emits zero operator notifications, not exactly one as claimed (the
escalation is only logged). -/
theorem open_ticket_escalation_counterexample :
    c5Run.1.tickets.find? (ticketOwnedBy 1 7)
      = some ⟨1, 7, "No video", "stream freezes", .escalated⟩ ∧
    c5Run.1.ticket_messages = [⟨1, 7, "stream freezes", false, false⟩] ∧
    c5Run.1.sent = [] ∧ c5Run.1.sent.length ≠ 1 := by decide

/-- Claim C5 (amended): when the resolution attempt for a new ticket raises
or times out, the ticket is created with status `escalated`, exactly the one
user message (no assistant message) is appended, and no outbound notification
of any kind is pushed — operators learn of the escalation only from the
admin panel or the log. -/
theorem open_ticket_escalation_spec (s : BotState) (user_id : Nat)
    (title desc : String) :
    (Bot.handle_ticket_description s user_id title desc .failure).1.tickets
      = s.tickets ++ [⟨s.next_ticket_id, user_id, title, desc, .escalated⟩] ∧
    (Bot.handle_ticket_description s user_id title desc .failure).1.ticket_messages
      = s.ticket_messages ++ [⟨s.next_ticket_id, user_id, desc, false, false⟩] ∧
    (Bot.handle_ticket_description s user_id title desc .failure).1.sent = s.sent ∧
    (Bot.handle_ticket_description s user_id title desc .failure).2
      = s.next_ticket_id :=
  ⟨rfl, rfl, rfl, rfl⟩

/-- Claim C4 (counterexample): a provider reply that is exactly an escalation
marker phrase makes the resolution return `None`, yet the reply is stored in
the response cache. -/
theorem escalation_reply_cached_counterexample :
    c4Run.1 = none ∧
    c4Run.2.respCache = [⟨"p:none", "troppo complesso", 0⟩] := by decide

/-- Claim C4 (amended): on a cache miss, every successful provider reply is
stored into the response cache before the escalation-marker check — replies
that trigger escalation included — so a later cache hit can return an
escalation-marked reply as a resolution. -/
theorem provider_reply_always_cached (hashFn : String → String)
    (ctx : Nat → String) (problem text : String) (ticketId : Option Nat)
    (st : AIServiceState) (now : Int)
    (h : pyTruthy (EnhancedAIService.lookupStage hashFn ctx problem ticketId
      st now).1 = false) :
    (EnhancedAIService.get_ai_response hashFn ctx (some ()) (.success text)
        problem ticketId st now).2.respCache
      = AIResponseCache.set
          (EnhancedAIService.lookupStage hashFn ctx problem ticketId st now).2.respCache
          (hashFn problem) (contextHash hashFn ctx ticketId) (pyStrip text) now := by
  simp only [EnhancedAIService.get_ai_response, h, Bool.false_eq_true, if_false]
  by_cases hm : containsMarker (pyStrip text) <;> simp [hm]

/-- Witness for the amended C4: a marker-free reply on an empty cache is
stored under its problem/context key. -/
theorem provider_reply_always_cached_witness :
    (EnhancedAIService.get_ai_response id (fun _ => "") (some ()) (.success "ok")
        "p" none ⟨[], []⟩ 0).2.respCache
      = AIResponseCache.set
          (EnhancedAIService.lookupStage id (fun _ => "") "p" none ⟨[], []⟩ 0).2.respCache
          (id "p") (contextHash id (fun _ => "") none) (pyStrip "ok") 0 :=
  provider_reply_always_cached id (fun _ => "") "p" "ok" none ⟨[], []⟩ 0 (by decide)

set_option maxRecDepth 200000 in
/-- Claim C7 (counterexample): an entry inserted at second 0 with a 24h TTL
is served by the pipeline lookup path at second 90000 (25h later): the
`lru_cache` wrapper memoized the reply at second 3600 (after one hundred
other lookups evicted the initially memoized miss) and serves it past the
TTL. -/
theorem stale_cache_served_counterexample :
    c7S1.respCache = [⟨"p:none", "risposta utile", 0⟩] ∧
    c7B.result = some "risposta utile" ∧
    c7C.result = some "risposta utile" ∧
    AIResponseCache.ttlSeconds ≤ (90000 : Int) - 0 := by decide

/-- Claim C7 (amended): the underlying `AIResponseCache.get` never returns an
entry whose age reaches the TTL; the pipeline lookup `get_cached_ai_response`
also misses — but only provided the argument pair is not memoized in its lru
wrapper, which can otherwise serve a reply past the TTL. -/
theorem ttl_miss_when_not_memoized (memo : List LruEntry) (cache : List CacheEntry)
    (ph ch : String) (now : Int)
    (hmemo : memo.find? (fun e => e.1 == (ph, ch)) = none)
    (hexp : ∀ e ∈ cache, (e.key == AIResponseCache.cacheKey ph ch) = true →
      AIResponseCache.ttlSeconds ≤ now - e.timestamp) :
    (AIResponseCache.get cache ph ch now).1 = none ∧
    (get_cached_ai_response memo cache ph ch now).result = none := by
  have hget : (AIResponseCache.get cache ph ch now).1 = none := by
    simp only [AIResponseCache.get]
    rcases hfind : cache.find? (fun e => e.key == AIResponseCache.cacheKey ph ch)
      with _ | e
    · simp [hfind]
    · have hmem := List.mem_of_find?_eq_some hfind
      have hkey : (e.key == AIResponseCache.cacheKey ph ch) = true := by
        simpa using List.find?_some hfind
      have httl := hexp e hmem hkey
      have hlt : ¬(now - e.timestamp < AIResponseCache.ttlSeconds) := not_lt.mpr httl
      simp [hfind, hlt]
  refine ⟨hget, ?_⟩
  simp only [get_cached_ai_response, hmemo]
  exact hget

/-- Witness for the amended C7: with an empty memo, a lookup 25h after the
insertion misses. -/
theorem ttl_miss_when_not_memoized_witness :
    (get_cached_ai_response [] [⟨"p:none", "r", 0⟩] "p" "none" 90000).result = none :=
  (ttl_miss_when_not_memoized [] [⟨"p:none", "r", 0⟩] "p" "none" 90000 rfl
    (by decide)).2

end ErixBot
